import Mathlib

/-!
# Verification of the embedded-clickhouse lifecycle orchestrator

Shallow embedding of the Go sources of `franchb/embedded-clickhouse`:
platform/asset resolution (`platform.go`), checksum-digest parsing
(`download.go`), configuration rendering (`server_config.go`,
`cluster_config.go`), process supervision (`process.go`), readiness
probing (`health.go`), and the single-node / cluster lifecycle state
machines (`EmbeddedClickHouse.Start/Stop`, `Cluster.Start/Stop`).

Strings manipulated by the Go code are modelled as `List Char` (with
`String` wrappers where convenient) so that every definition is
executable and kernel-computable.  Effectful steps (filesystem,
network, process control) are modelled by oracle environments: each
effectful call's outcome is an input to the embedded function, and the
function returns, besides its result, the trace of undo actions it
recorded and executed, so that rollback claims can be stated.
-/

namespace ECH

/-- Cancellation cause of a Go `context` (the value of `ctx.Err()`). -/
inductive Cause where
  | deadlineExceeded
  | canceled
deriving DecidableEq, Repr

/-- Error model.  Each sentinel `Err...` variable of the Go package is one
constructor; `wrap` models `fmt.Errorf("...: %w", err)` context wrapping,
`joined` models `errors.Join`, and `io` stands for opaque operating-system
errors surfaced by oracles. -/
inductive Err where
  | serverAlreadyStarted
  | serverNotStarted
  | clusterAlreadyStarted
  | clusterNotStarted
  | invalidReplicaCount (got : Nat)
  | keeperNotReady (cause : Cause)
  | unsupportedPlatform (ctx : String)
  | stopTimeout
  | downloadFailed
  | sha512Mismatch
  | sha512NotFound (filename : List Char)
  | binaryNotFound
  | invalidPath
  | unexpectedAddrType
  | invalidSettingKey (key : String)
  | notReady (cause : Cause)
  | exitError (code : Int)
  | waitError
  | io (msg : String)
  | wrap (ctx : String) (e : Err)
deriving DecidableEq, Repr

/-- Decidable equality for step results, so that witnesses can be
checked by evaluation. -/
instance {ε α : Type} [DecidableEq ε] [DecidableEq α] : DecidableEq (Except ε α) := fun x y =>
  match x, y with
  | .ok a, .ok b =>
    if h : a = b then .isTrue (by rw [h])
    else .isFalse (by intro he; cases he; exact h rfl)
  | .error a, .error b =>
    if h : a = b then .isTrue (by rw [h])
    else .isFalse (by intro he; cases he; exact h rfl)
  | .ok _, .error _ => .isFalse (by intro h; cases h)
  | .error _, .ok _ => .isFalse (by intro h; cases h)

/-- Go `errors.Join(errs...)`: `nil` when every collected error was `nil`,
otherwise the single aggregate carrying all of them in order. -/
def joinErrors (errs : List Err) : Except (List Err) Unit :=
  if errs.isEmpty then .ok () else .error errs

/-! ## Character-list string helpers (Go `strings` package operations) -/

/-- Go `unicode.IsSpace` restricted to the ASCII whitespace the digest and
version strings can contain. -/
def goIsSpace (c : Char) : Bool :=
  c = ' ' || c = '\t' || c = '\n' || c = '\r' || c = '\x0b' || c = '\x0c'

/-- Go `strings.TrimSpace`. -/
def trimSpace (s : List Char) : List Char :=
  ((s.dropWhile goIsSpace).reverse.dropWhile goIsSpace).reverse

/-- Split on a predicate, keeping empty segments (Go `strings.FieldsFunc`
before dropping empties / `strings.Split` for a one-char separator). -/
def splitByPred (p : Char → Bool) : List Char → List (List Char)
  | [] => [[]]
  | c :: cs =>
    let r := splitByPred p cs
    if p c then [] :: r
    else
      match r with
      | [] => [[c]]
      | l :: ls => (c :: l) :: ls

/-- Go `strings.Split(s, "\n")`. -/
def splitLines (s : List Char) : List (List Char) :=
  splitByPred (fun c => c = '\n') s

/-- Go `strings.Fields`: whitespace-separated fields, empties dropped. -/
def fields (s : List Char) : List (List Char) :=
  (splitByPred goIsSpace s).filter (fun t => !t.isEmpty)

/-- Go `strings.ToLower` (ASCII). -/
def toLowerLC (s : List Char) : List Char :=
  s.map Char.toLower

/-- Go `strings.LastIndex(s, "-")`: index of the last `'-'`, if any. -/
def lastDash : List Char → Option Nat
  | [] => none
  | c :: cs =>
    match lastDash cs with
    | some i => some (i + 1)
    | none => if c = '-' then some 0 else none

/-! ## `platform.go` -/

/-- Go `numericVersion` (platform.go): strip a trailing `-lts`, `-stable` or
`-testing` channel suffix at the last dash; otherwise return unchanged. -/
def numericVersion (s : List Char) : List Char :=
  match lastDash s with
  | none => s
  | some i =>
    let suffix := s.drop (i + 1)
    if suffix = "lts".toList ∨ suffix = "stable".toList ∨ suffix = "testing".toList then
      s.take i
    else s

/-- Whether `numericVersion` recognizes a channel suffix in `s` (the
condition under which it strips anything). -/
def hasChannelSuffix (s : List Char) : Bool :=
  match lastDash s with
  | none => false
  | some i =>
    let suffix := s.drop (i + 1)
    suffix = "lts".toList || suffix = "stable".toList || suffix = "testing".toList

/-- Go `numericVersion` on `String`, as the Go function is typed. -/
def numericVersionS (v : String) : String :=
  (numericVersion v.toList).asString

/-- Go `assetType` (platform.go). -/
inductive assetType where
  | archive
  | rawBinary
deriving DecidableEq, Repr

/-- Go `platformAsset` (platform.go). -/
structure platformAsset where
  filename : String
  kind : assetType
deriving DecidableEq, Repr

/-- Go `linuxArch` (platform.go). -/
def linuxArch (goarch : String) : Except Err String :=
  if goarch = "amd64" then .ok "amd64"
  else if goarch = "arm64" then .ok "arm64"
  else .error (.unsupportedPlatform ("linux/" ++ goarch))

/-- Go `darwinAssetName` (platform.go). -/
def darwinAssetName (goarch : String) : Except Err String :=
  if goarch = "amd64" then .ok "clickhouse-macos"
  else if goarch = "arm64" then .ok "clickhouse-macos-aarch64"
  else .error (.unsupportedPlatform ("darwin/" ++ goarch))

/-- Go `resolveAsset` (platform.go). -/
def resolveAsset (version goos goarch : String) : Except Err platformAsset :=
  if goos = "linux" then
    let numVer := numericVersionS version
    match linuxArch goarch with
    | .error e => .error e
    | .ok arch =>
      .ok ⟨"clickhouse-common-static-" ++ numVer ++ "-" ++ arch ++ ".tgz", .archive⟩
  else if goos = "darwin" then
    match darwinAssetName goarch with
    | .error e => .error e
    | .ok name => .ok ⟨name, .rawBinary⟩
  else .error (.unsupportedPlatform (goos ++ "/" ++ goarch))

/-! ## `download.go`: checksum digest parsing -/

/-- Does `line` hold an entry `hash  filename` for this `filename`
(the first-phase match condition of `parseSHA512`)? -/
def entryMatches (filename line : List Char) : Bool :=
  let parts := fields line
  decide (2 ≤ parts.length) && (parts.getD 1 [] = filename)

/-- Go `parseSHA512` (download.go): first return the lower-cased hash of the
first `hash  filename` entry matching `filename`; failing that, accept a
single-line digest whose first field is 128 characters long; otherwise
fail with the hash-not-found error. -/
def parseSHA512 (content filename : List Char) : Except Err (List Char) :=
  let lines := splitLines (trimSpace content)
  match lines.find? (entryMatches filename) with
  | some line => .ok (toLowerLC ((fields line).getD 0 []))
  | none =>
    if lines.length = 1 then
      let parts := fields (lines.getD 0 [])
      if 1 ≤ parts.length ∧ (parts.getD 0 []).length = 128 then
        .ok (toLowerLC (parts.getD 0 []))
      else .error (.sha512NotFound filename)
    else .error (.sha512NotFound filename)

/-! ## `server_config.go`: single-node configuration rendering -/

/-- One character of Go `xml.EscapeText`. -/
def xmlEscapeChar (c : Char) : List Char :=
  if c = '"' then "&#34;".toList
  else if c = '\'' then "&#39;".toList
  else if c = '&' then "&amp;".toList
  else if c = '<' then "&lt;".toList
  else if c = '>' then "&gt;".toList
  else if c = '\t' then "&#x9;".toList
  else if c = '\n' then "&#xA;".toList
  else if c = '\r' then "&#xD;".toList
  else [c]

/-- Go `xmlEscapeString` (server_config.go). -/
def xmlEscapeS (s : String) : String :=
  (s.toList.flatMap xmlEscapeChar).asString

/-- ASCII letter test for the settings-key pattern. -/
def isAsciiLetter (c : Char) : Bool :=
  ('a' ≤ c && c ≤ 'z') || ('A' ≤ c && c ≤ 'Z')

/-- Go `validSettingKey` (server_config.go): the regular expression
`^[a-zA-Z][a-zA-Z0-9_]*$`. -/
def validSettingKey (k : String) : Bool :=
  match k.toList with
  | [] => false
  | c :: cs =>
    isAsciiLetter c && cs.all (fun d => isAsciiLetter d || ('0' ≤ d && d ≤ '9') || d = '_')

/-- Insert one settings pair into a key-sorted list. -/
def insertByKey (kv : String × String) : List (String × String) → List (String × String)
  | [] => [kv]
  | x :: xs => if kv.1 < x.1 then kv :: x :: xs else x :: insertByKey kv xs

/-- Go `text/template` iterates a map in sorted key order. -/
def sortByKey (l : List (String × String)) : List (String × String) :=
  l.foldr insertByKey []

/-- Output of the single-node template's settings loop: one
`\n    <key>value</key>\n` block per entry, in template (sorted-key)
iteration order. -/
def renderSettingsBlock (settings : List (String × String)) : String :=
  String.join ((sortByKey settings).map
    (fun kv => "\n    <" ++ kv.1 ++ ">" ++ xmlEscapeS kv.2 ++ "</" ++ kv.1 ++ ">\n"))

/-- The `max_server_memory_usage` default element hard-coded in
`configTemplate` (server_config.go line 29), with its preceding comment. -/
def memoryDefaultElem : String :=
  "    <!-- 1 GiB default; override via Settings(\x7b\"max_server_memory_usage\": \"...\"\x7d) -->\n    <max_server_memory_usage>1073741824</max_server_memory_usage>\n"

/-- Rendered output of `configTemplate` (server_config.go lines 13-55)
for the given template data: fixed text with the data spliced in at the
placeholder positions, and the settings map appended at the end. -/
def renderServerConfig (tcpPort httpPort : Nat)
    (dataDir tmpDir userFilesDir formatSchemaDir : String)
    (settings : List (String × String)) : String :=
  "<?xml version=\"1.0\"?>\n<clickhouse>\n    <logger>\n        <level>warning</level>\n        <console>1</console>\n    </logger>\n\n    <tcp_port>" ++ toString tcpPort ++ "</tcp_port>\n    <http_port>" ++ toString httpPort ++ "</http_port>\n\n    <path>" ++ xmlEscapeS dataDir ++ "/</path>\n    <tmp_path>" ++ xmlEscapeS tmpDir ++ "/</tmp_path>\n    <user_files_path>" ++ xmlEscapeS userFilesDir ++ "/</user_files_path>\n    <format_schema_path>" ++ xmlEscapeS formatSchemaDir ++ "/</format_schema_path>\n\n" ++ memoryDefaultElem ++ "\n    <users>\n        <default>\n            <password></password>\n            <networks>\n                <ip>::1</ip>\n                <ip>127.0.0.1</ip>\n            </networks>\n            <profile>default</profile>\n            <quota>default</quota>\n            <access_management>1</access_management>\n        </default>\n    </users>\n\n    <profiles>\n        <default/>\n    </profiles>\n\n    <quotas>\n        <default/>\n    </quotas>\n" ++ renderSettingsBlock settings ++ "\n</clickhouse>\n"

/-- Go `writeServerConfig` (server_config.go lines 85-130), restricted to what
it computes: validate every settings key, then render `configTemplate`
with the four subdirectory paths of `dir` (directory creation and file
writing are operating-system effects and cannot change the produced
document). -/
def writeServerConfig (dir : String) (tcpPort httpPort : Nat)
    (settings : List (String × String)) : Except Err String :=
  match settings.find? (fun kv => !validSettingKey kv.1) with
  | some kv => .error (.invalidSettingKey kv.1)
  | none =>
    .ok (renderServerConfig tcpPort httpPort
      (dir ++ "/data") (dir ++ "/tmp") (dir ++ "/user_files") (dir ++ "/format_schemas")
      settings)

/-- Count of occurrences of `pat` in `s` (every position where `pat` is a
prefix of the remaining suffix), as the repository's own test counts
elements with `strings.Count`. -/
def countOccur (pat : List Char) : List Char → Nat
  | [] => 0
  | c :: cs => (if pat.isPrefixOf (c :: cs) then 1 else 0) + countOccur pat cs

/-! ## `cluster_config.go`: per-node cluster configuration -/

/-- Go `clusterNodePorts` (cluster_config.go). -/
structure clusterNodePorts where
  TCP : Nat
  HTTP : Nat
  Interserver : Nat
  Keeper : Nat
  KeeperRaft : Nat
deriving DecidableEq, Repr, Inhabited

/-- Go `raftServer` (cluster_config.go). -/
structure raftServer where
  ID : Nat
  Port : Nat
deriving DecidableEq, Repr

/-- Go `keeperNode` (cluster_config.go). -/
structure keeperNode where
  Port : Nat
deriving DecidableEq, Repr

/-- Go `clusterReplica` (cluster_config.go). -/
structure clusterReplica where
  Port : Nat
deriving DecidableEq, Repr

/-- Go `clusterTopology` (cluster_config.go); the settings map is modelled as
an association list with unique keys. -/
structure clusterTopology where
  Nodes : List clusterNodePorts
  Settings : List (String × String)
deriving DecidableEq, Repr

/-- Go `buildClusterTopology` (cluster_config.go): copies the settings beside
the allocated ports. -/
def buildClusterTopology (ports : List clusterNodePorts)
    (settings : List (String × String)) : clusterTopology :=
  { Nodes := ports, Settings := settings }

/-- Go `clusterNodeConfigData` (cluster_config.go). -/
structure clusterNodeConfigData where
  TCPPort : Nat
  HTTPPort : Nat
  InterserverPort : Nat
  KeeperPort : Nat
  ServerID : Nat
  DataDir : String
  TmpDir : String
  UserFilesDir : String
  FormatSchemaDir : String
  KeeperLogDir : String
  KeeperSnapshotDir : String
  ReplicaName : String
  RaftServers : List raftServer
  KeeperNodes : List keeperNode
  ClusterReplicas : List clusterReplica
  Settings : List (String × String)
deriving DecidableEq, Repr

/-- Go `fmt.Sprintf("replica_%02d", n)`. -/
def replicaName (n : Nat) : String :=
  "replica_" ++ (if n < 10 then "0" ++ toString n else toString n)

/-- The template data computed by `writeClusterNodeConfig`
(cluster_config.go lines 182-224): node `nodeIndex`'s own ports and
1-based server id, plus the raft/coordination/replica lists derived from
the whole topology in node order. -/
def buildClusterNodeConfigData (dir : String) (nodeIndex : Nat)
    (topo : clusterTopology) : clusterNodeConfigData :=
  let node := topo.Nodes.getD nodeIndex default
  { TCPPort := node.TCP
    HTTPPort := node.HTTP
    InterserverPort := node.Interserver
    KeeperPort := node.Keeper
    ServerID := nodeIndex + 1
    DataDir := dir ++ "/data"
    TmpDir := dir ++ "/tmp"
    UserFilesDir := dir ++ "/user_files"
    FormatSchemaDir := dir ++ "/format_schemas"
    KeeperLogDir := dir ++ "/coordination/log"
    KeeperSnapshotDir := dir ++ "/coordination/snapshots"
    ReplicaName := replicaName (nodeIndex + 1)
    RaftServers := topo.Nodes.mapIdx (fun i n => { ID := i + 1, Port := n.KeeperRaft })
    KeeperNodes := topo.Nodes.map (fun n => { Port := n.Keeper })
    ClusterReplicas := topo.Nodes.map (fun n => { Port := n.TCP })
    Settings := topo.Settings }

/-- Go `writeClusterNodeConfig` (cluster_config.go lines 175-244): validate
the settings keys, then produce the template data for the node (directory
creation and the file write are effects of the enclosing oracle). -/
def writeClusterNodeConfigData (dir : String) (nodeIndex : Nat)
    (topo : clusterTopology) : Except Err clusterNodeConfigData :=
  match topo.Settings.find? (fun kv => !validSettingKey kv.1) with
  | some kv => .error (.invalidSettingKey kv.1)
  | none => .ok (buildClusterNodeConfigData dir nodeIndex topo)

/-- One `<server>` entry of the `<raft_configuration>` block. -/
def renderRaftServer (rs : raftServer) : String :=
  "\n            <server>\n                <id>" ++ toString rs.ID ++ "</id>\n                <hostname>127.0.0.1</hostname>\n                <port>" ++ toString rs.Port ++ "</port>\n            </server>"

/-- The full raft-membership block body, in list order. -/
def raftBlock (l : List raftServer) : String :=
  String.join (l.map renderRaftServer)

/-- One `<node>` entry of the `<zookeeper>` coordination-client block. -/
def renderKeeperNode (kn : keeperNode) : String :=
  "\n        <node>\n            <host>127.0.0.1</host>\n            <port>" ++ toString kn.Port ++ "</port>\n        </node>"

/-- The full coordination-client block body, in list order. -/
def keeperBlock (l : List keeperNode) : String :=
  String.join (l.map renderKeeperNode)

/-- One `<replica>` entry of the `<remote_servers>` block. -/
def renderClusterReplica (r : clusterReplica) : String :=
  "\n                <replica>\n                    <host>127.0.0.1</host>\n                    <port>" ++ toString r.Port ++ "</port>\n                </replica>"

/-- The full remote-replica block body, in list order. -/
def replicaBlock (l : List clusterReplica) : String :=
  String.join (l.map renderClusterReplica)

/-- Settings loop of the cluster template (`{{range}}` with a trimmed
`{{- end}}`): one `\n    <key>value</key>` block per entry. -/
def clusterSettingsBlock (settings : List (String × String)) : String :=
  String.join ((sortByKey settings).map
    (fun kv => "\n    <" ++ kv.1 ++ ">" ++ xmlEscapeS kv.2 ++ "</" ++ kv.1 ++ ">"))

/-- Rendered output of `clusterConfigTemplate` (cluster_config.go lines
11-105) for the given template data. -/
def renderClusterNodeConfig (d : clusterNodeConfigData) : String :=
  "<?xml version=\"1.0\"?>\n<clickhouse>\n    <logger>\n        <level>warning</level>\n        <console>1</console>\n    </logger>\n\n    " ++ ("<tcp_port>" ++ toString d.TCPPort ++ "</tcp_port>") ++ "\n    " ++ ("<http_port>" ++ toString d.HTTPPort ++ "</http_port>") ++ "\n    " ++ ("<interserver_http_port>" ++ toString d.InterserverPort ++ "</interserver_http_port>") ++ "\n    <interserver_http_host>127.0.0.1</interserver_http_host>\n\n    <path>" ++ xmlEscapeS d.DataDir ++ "/</path>\n    <tmp_path>" ++ xmlEscapeS d.TmpDir ++ "/</tmp_path>\n    <user_files_path>" ++ xmlEscapeS d.UserFilesDir ++ "/</user_files_path>\n    <format_schema_path>" ++ xmlEscapeS d.FormatSchemaDir ++ "/</format_schema_path>\n\n    <users>\n        <default>\n            <password></password>\n            <networks>\n                <ip>::1</ip>\n                <ip>127.0.0.1</ip>\n            </networks>\n            <profile>default</profile>\n            <quota>default</quota>\n            <access_management>1</access_management>\n        </default>\n    </users>\n\n    <profiles>\n        <default/>\n    </profiles>\n\n    <quotas>\n        <default/>\n    </quotas>\n\n    <keeper_server>\n        " ++ ("<tcp_port>" ++ toString d.KeeperPort ++ "</tcp_port>") ++ "\n        " ++ ("<server_id>" ++ toString d.ServerID ++ "</server_id>") ++ "\n        <log_storage_path>" ++ xmlEscapeS d.KeeperLogDir ++ "/</log_storage_path>\n        <snapshot_storage_path>" ++ xmlEscapeS d.KeeperSnapshotDir ++ "/</snapshot_storage_path>\n        <coordination_settings>\n            <operation_timeout_ms>10000</operation_timeout_ms>\n            <session_timeout_ms>30000</session_timeout_ms>\n            <raft_logs_level>warning</raft_logs_level>\n        </coordination_settings>\n        <raft_configuration>" ++ raftBlock d.RaftServers ++ "\n        </raft_configuration>\n    </keeper_server>\n\n    <zookeeper>" ++ keeperBlock d.KeeperNodes ++ "\n    </zookeeper>\n\n    <remote_servers>\n        <test_cluster>\n            <shard>\n                <internal_replication>true</internal_replication>" ++ replicaBlock d.ClusterReplicas ++ "\n            </shard>\n        </test_cluster>\n    </remote_servers>\n\n    <distributed_ddl>\n        <path>/clickhouse/task_queue/ddl</path>\n    </distributed_ddl>\n\n    <macros>\n        <shard>01</shard>\n        " ++ ("<replica>" ++ d.ReplicaName ++ "</replica>") ++ "\n    </macros>\n" ++ clusterSettingsBlock d.Settings ++ "\n</clickhouse>\n"

/-! ## `process.go`: `stopProcess` -/

/-- Outcome of `cmd.Wait()` as observed on the `done` channel:
`exited c` is an `exec.ExitError` with `ExitCode() = c`; `waitFailed` is
a non-`ExitError` failure of the wait itself; `clean` is a nil error. -/
inductive WaitOutcome where
  | exited (code : Int)
  | waitFailed
  | clean
deriving DecidableEq, Repr

/-- Signals `stopProcess` can deliver to the process group. -/
inductive Signal where
  | sigterm
  | sigkill
deriving DecidableEq, Repr

/-- Observable actions of `stopProcess`, in program order:
`signalGroup s` is `syscall.Kill(-pgid, s)`, `awaitWait` is the receive
on the `done` channel (the completed `cmd.Wait()`). -/
inductive ProcAction where
  | signalGroup (s : Signal)
  | awaitWait
deriving DecidableEq, Repr

/-- Oracle for one `stopProcess` call: whether a live handle exists
(`cmd != nil && cmd.Process != nil`), whether `Getpgid` succeeds (it
fails when the process is already gone), whether the timeout timer fires
before the wait completes, and the wait's outcome. -/
structure StopProcEnv where
  handlePresent : Bool
  pgidOk : Bool
  timeoutFirst : Bool
  waitOutcome : WaitOutcome
deriving DecidableEq, Repr

/-- Go `stopProcess` (process.go lines 51-95): nil/gone handles succeed; a
SIGTERM is sent to the group; if the timeout fires first the group is
SIGKILLed, the wait is still received, and `ErrStopTimeout` is returned;
otherwise exit codes -1 and 143 are success and any other wait outcome
is surfaced.  Returns the result and the ordered action trace. -/
def stopProcess (env : StopProcEnv) : Except Err Unit × List ProcAction :=
  if !env.handlePresent then (.ok (), [])
  else if !env.pgidOk then (.ok (), [])
  else if env.timeoutFirst then
    (.error .stopTimeout, [.signalGroup .sigterm, .signalGroup .sigkill, .awaitWait])
  else
    match env.waitOutcome with
    | .clean => (.ok (), [.signalGroup .sigterm, .awaitWait])
    | .waitFailed => (.error .waitError, [.signalGroup .sigterm, .awaitWait])
    | .exited c =>
      if c = -1 ∨ c = 143 then (.ok (), [.signalGroup .sigterm, .awaitWait])
      else (.error (.exitError c), [.signalGroup .sigterm, .awaitWait])

/-! ## `health.go`: readiness probing -/

/-- Outcome of one `/ping` probe: a network/request error, a request
timeout, or an HTTP response with the given status code. -/
inductive ProbeOutcome where
  | netError
  | reqTimeout
  | status (code : Nat)
deriving DecidableEq, Repr

/-- Go `ping` (health.go lines 41-56): request or transport failures are
`false`; a response is a success exactly when its status equals
`http.StatusOK` (200). -/
def pingOk (o : ProbeOutcome) : Bool :=
  match o with
  | .netError => false
  | .reqTimeout => false
  | .status code => code = 200

/-- Poll loop of `waitForReady`: at tick `k`, if the probe succeeds
return `k`, else continue until the context deadline (`fuel` remaining
ticker fires) is exhausted, then fail with the cancellation cause. -/
def waitLoop (probe : Nat → ProbeOutcome) (cause : Cause) (k : Nat) : Nat → Except Err Nat
  | 0 => .error (.notReady cause)
  | fuel + 1 =>
    if pingOk (probe k) then .ok k
    else waitLoop probe cause (k + 1) fuel

/-- Go `waitForReady` (health.go lines 17-39): one immediate probe (tick 0)
before the fixed-interval loop; `ticks` is the number of ticker fires
the context deadline allows and `cause` is `ctx.Err()` at expiry.
Returns the tick of the first successful probe. -/
def waitForReady (probe : Nat → ProbeOutcome) (ticks : Nat) (cause : Cause) : Except Err Nat :=
  if pingOk (probe 0) then .ok 0
  else waitLoop probe cause 1 ticks

/-! ## Lifecycle state machines

`EmbeddedClickHouse.Start/Stop` and `Cluster.Start/Stop` perform a fixed
sequence of effectful steps, each of which can fail.  Each step's
outcome is an oracle input; the functions return the result, the final
state, the undo actions recorded on the cleanup stack (in recording
order) and the undo actions actually executed (in execution order).
The Go `defer`red rollback runs the stack from the last element to the
first, which is transcribed as `recorded.reverse`. -/

/-- The configuration fields `Start`/`Stop` read directly; all other
`Config` fields are consumed inside the oracle steps. -/
structure Config where
  tcpPort : Nat := 0
  httpPort : Nat := 0
  dataPath : String := ""
deriving DecidableEq, Repr, Inhabited

/-- Go `EmbeddedClickHouse` runtime state (the mutable fields of the Go
struct; the cluster-mode fields are populated only by `Cluster.Start`). -/
structure EmbeddedState where
  started : Bool := false
  cmd : Option Nat := none
  tmpDir : String := ""
  tcpPort : Nat := 0
  httpPort : Nat := 0
  interserverPort : Nat := 0
  keeperPort : Nat := 0
  keeperRaftPort : Nat := 0
  clusterManaged : Bool := false
deriving DecidableEq, Repr, Inhabited

/-- An undo action pushed on the cleanup stack: `os.RemoveAll` of a
directory, or `stopProcess` of a launched process (identified by pid). -/
inductive Action where
  | removeDir (path : String)
  | stopProc (pid : Nat)
deriving DecidableEq, Repr

/-- Outcome of a `Start` call over state `σ`. -/
structure StartResult (σ : Type) where
  result : Except Err Unit
  state : σ
  recorded : List Action
  executed : List Action
deriving Repr

/-- Oracle for one `EmbeddedClickHouse.Start` attempt.  `allocPort k` is
the `k`-th `allocatePort` call of this attempt. -/
structure InstanceStartEnv where
  ensureBinary : Except Err String
  allocPort : Nat → Except Err Nat
  mkdirData : Except Err Unit
  mkdirTemp : Except Err String
  writeConfig : Except Err String
  startProc : Except Err Nat
  waitReady : Except Err Unit

/-- The directory step of `EmbeddedClickHouse.Start` (part_003 lines
139-154): a configured persistent data path is created with `MkdirAll`
and records no undo action; otherwise a fresh temp directory is created
and its removal is pushed on the cleanup stack. -/
def dirStep (cfg : Config) (env : InstanceStartEnv) :
    Except Err (String × List Action) :=
  if cfg.dataPath ≠ "" then
    match env.mkdirData with
    | .error err => .error (.wrap "create data dir" err)
    | .ok _ => .ok (cfg.dataPath, [])
  else
    match env.mkdirTemp with
    | .error err => .error (.wrap "create temp dir" err)
    | .ok t => .ok (t, [Action.removeDir t])

/-- Go `EmbeddedClickHouse.Start` (part_003 lines 93-193): reject a started
instance; then binary → ports → directory → config → process →
readiness, recording undo actions (remove the created temp directory;
stop the launched process) and running them in reverse on any failure.
A caller-supplied `dataPath` is created with `MkdirAll` and never gets
an undo action. -/
def instanceStart (cfg : Config) (e : EmbeddedState) (env : InstanceStartEnv) :
    StartResult EmbeddedState :=
  if e.started then ⟨.error .serverAlreadyStarted, e, [], []⟩
  else
    match env.ensureBinary with
    | .error err => ⟨.error err, e, [], []⟩
    | .ok _binPath =>
      let tcpStep : Except Err (Nat × Nat) :=
        if cfg.tcpPort = 0 then
          match env.allocPort 0 with
          | .error err => .error err
          | .ok p => .ok (p, 1)
        else .ok (cfg.tcpPort, 0)
      match tcpStep with
      | .error err => ⟨.error err, e, [], []⟩
      | .ok (tcpPort, used) =>
        let httpStep : Except Err Nat :=
          if cfg.httpPort = 0 then env.allocPort used else .ok cfg.httpPort
        match httpStep with
        | .error err => ⟨.error err, e, [], []⟩
        | .ok httpPort =>
          match dirStep cfg env with
          | .error err => ⟨.error err, e, [], []⟩
          | .ok (tmpDir, cleanups) =>
            match env.writeConfig with
            | .error err => ⟨.error err, e, cleanups, cleanups.reverse⟩
            | .ok _configPath =>
              match env.startProc with
              | .error err => ⟨.error err, e, cleanups, cleanups.reverse⟩
              | .ok pid =>
                let cleanups := cleanups ++ [Action.stopProc pid]
                match env.waitReady with
                | .error err => ⟨.error err, e, cleanups, cleanups.reverse⟩
                | .ok _ =>
                  ⟨.ok (), { e with
                      started := true, cmd := some pid, tmpDir := tmpDir,
                      tcpPort := tcpPort, httpPort := httpPort }, cleanups, []⟩

/-- Oracle for one `EmbeddedClickHouse.Stop` call. -/
structure InstanceStopEnv where
  stopProc : Except Err Unit
  removeDir : Except Err Unit

/-- Go `EmbeddedClickHouse.Stop` (part_003 lines 196-223): reject a
non-started instance (the sentinel is modelled as a singleton aggregate);
otherwise stop the process and, only when no persistent data path was
configured, remove the temp directory, aggregating rather than
short-circuiting the errors, and reset the runtime fields. -/
def instanceStop (cfg : Config) (e : EmbeddedState) (env : InstanceStopEnv) :
    Except (List Err) Unit × EmbeddedState :=
  if !e.started then (.error [.serverNotStarted], e)
  else
    let errs : List Err :=
      (match env.stopProc with
       | .error err => [err]
       | .ok _ => []) ++
      (if cfg.dataPath = "" ∧ e.tmpDir ≠ "" then
        match env.removeDir with
        | .error err => [.wrap "remove temp dir" err]
        | .ok _ => []
      else [])
    (joinErrors errs,
     { e with started := false, cmd := none, tcpPort := 0, httpPort := 0 })

/-- Go `Cluster` runtime state. -/
structure ClusterState where
  replicas : Nat
  started : Bool := false
  nodes : List EmbeddedState := []
deriving DecidableEq, Repr

/-- Oracle for one `Cluster.Start` attempt; `allocPort k` is the `k`-th
`allocatePort` call (node `i` uses calls `5*i .. 5*i+4`), and the
per-node oracles are indexed by node. -/
structure ClusterStartEnv where
  ensureBinary : Except Err String
  allocPort : Nat → Except Err Nat
  mkdirTemp : Nat → Except Err String
  nodeConfig : Nat → Except Err String
  startProc : Nat → Except Err Nat
  waitReady : Nat → Except Err Unit
  waitQuorum : Except Err Unit

/-- Go `allocateClusterNodePorts` (cluster.go lines 277-310): five
sequential allocations, short-circuiting on the first failure. -/
def allocateClusterNodePorts (alloc : Nat → Except Err Nat) (base : Nat) :
    Except Err clusterNodePorts :=
  match alloc base with
  | .error e => .error e
  | .ok tcp =>
    match alloc (base + 1) with
    | .error e => .error e
    | .ok http =>
      match alloc (base + 2) with
      | .error e => .error e
      | .ok inter =>
        match alloc (base + 3) with
        | .error e => .error e
        | .ok keeper =>
          match alloc (base + 4) with
          | .error e => .error e
          | .ok raft => .ok ⟨tcp, http, inter, keeper, raft⟩

/-- The upfront port-allocation loop of `Cluster.Start` (lines 124-133). -/
def allocAllPorts (alloc : Nat → Except Err Nat) : Nat → Nat → Except Err (List clusterNodePorts)
  | _, 0 => .ok []
  | i, count + 1 =>
    match allocateClusterNodePorts alloc (5 * i) with
    | .error e => .error e
    | .ok np =>
      match allocAllPorts alloc (i + 1) count with
      | .error e => .error e
      | .ok rest => .ok (np :: rest)

/-- The per-node creation loop of `Cluster.Start` (lines 146-180):
create the node's temp directory (push its removal), render its config,
launch its process (push its stop), threading the cleanup stack; a
failure carries the stack recorded so far. -/
def startNodes (env : ClusterStartEnv) (ports : List clusterNodePorts) :
    Nat → Nat → List Action → Except (Err × List Action) (List EmbeddedState × List Action)
  | _, 0, cl => .ok ([], cl)
  | i, count + 1, cl =>
    match env.mkdirTemp i with
    | .error err => .error (.wrap ("create temp dir for node " ++ toString i) err, cl)
    | .ok t =>
      let cl := cl ++ [Action.removeDir t]
      match env.nodeConfig i with
      | .error err => .error (err, cl)
      | .ok _ =>
        match env.startProc i with
        | .error err => .error (.wrap ("start node " ++ toString i) err, cl)
        | .ok pid =>
          let cl := cl ++ [Action.stopProc pid]
          let np := ports.getD i default
          let node : EmbeddedState :=
            { started := true, cmd := some pid, tmpDir := t,
              tcpPort := np.TCP, httpPort := np.HTTP,
              interserverPort := np.Interserver, keeperPort := np.Keeper,
              keeperRaftPort := np.KeeperRaft, clusterManaged := true }
          match startNodes env ports (i + 1) count cl with
          | .error r => .error r
          | .ok (nodes, cl') => .ok (node :: nodes, cl')

/-- The sequential readiness loop of `Cluster.Start` (lines 186-190). -/
def waitAllReady (env : ClusterStartEnv) : Nat → Nat → Except Err Unit
  | _, 0 => .ok ()
  | i, count + 1 =>
    match env.waitReady i with
    | .error err => .error (.wrap ("node " ++ toString i ++ " not ready") err)
    | .ok _ => waitAllReady env (i + 1) count

/-- Go `Cluster.Start` (cluster.go lines 90-202): reject started clusters
and replica counts below two; then shared binary → all ports upfront →
per-node dirs/configs/processes → per-node readiness → keeper quorum,
with the recorded undo stack run in reverse on any failure. -/
def clusterStart (c : ClusterState) (env : ClusterStartEnv) : StartResult ClusterState :=
  if c.started then ⟨.error .clusterAlreadyStarted, c, [], []⟩
  else if c.replicas < 2 then ⟨.error (.invalidReplicaCount c.replicas), c, [], []⟩
  else
    match env.ensureBinary with
    | .error err => ⟨.error err, c, [], []⟩
    | .ok _ =>
      match allocAllPorts env.allocPort 0 c.replicas with
      | .error err => ⟨.error err, c, [], []⟩
      | .ok ports =>
        match startNodes env ports 0 c.replicas [] with
        | .error (err, cl) => ⟨.error err, c, cl, cl.reverse⟩
        | .ok (nodes, cl) =>
          match waitAllReady env 0 c.replicas with
          | .error err => ⟨.error err, c, cl, cl.reverse⟩
          | .ok _ =>
            match env.waitQuorum with
            | .error err => ⟨.error err, c, cl, cl.reverse⟩
            | .ok _ => ⟨.ok (), { c with started := true, nodes := nodes }, cl, []⟩

/-- Oracle for one `Cluster.Stop` call, indexed by node. -/
structure ClusterStopEnv where
  stopProc : Nat → Except Err Unit
  removeDir : Nat → Except Err Unit

/-- Error contribution of the `Cluster.Stop` loop body for node `i`
(cluster.go lines 216-234): a stop failure and, when the node has a temp
directory, a removal failure, each wrapped with the node index. -/
def nodeStopErrs (c : ClusterState) (env : ClusterStopEnv) (i : Nat) : List Err :=
  let node := c.nodes.getD i default
  (match env.stopProc i with
   | .error e => [.wrap ("node " ++ toString i) e]
   | .ok _ => []) ++
  (if node.tmpDir ≠ "" then
    match env.removeDir i with
    | .error e => [.wrap ("node " ++ toString i ++ ": remove temp dir") e]
    | .ok _ => []
  else [])

/-- Go `Cluster.Stop` (cluster.go lines 205-240): reject a non-started
cluster; otherwise visit every node from the highest index down to 0,
collecting (never short-circuiting on) per-node errors, then clear the
node list and the started flag unconditionally.  The third component is
the order in which nodes were visited.  (The per-node field resets are
discarded together with the node list, as in the source where
`c.nodes = nil` drops the mutated records.) -/
def clusterStop (c : ClusterState) (env : ClusterStopEnv) :
    Except (List Err) Unit × ClusterState × List Nat :=
  if !c.started then (.error [.clusterNotStarted], c, [])
  else
    let order := (List.range c.nodes.length).reverse
    let errs := order.flatMap (nodeStopErrs c env)
    (joinErrors errs, { c with started := false, nodes := [] }, order)

/-! ## Helper lemmas -/

set_option maxRecDepth 40000

/-- The helper `lastDash` finds nothing exactly on dash-free strings. -/
theorem lastDash_eq_none_iff (s : List Char) : lastDash s = none ↔ '-' ∉ s := by
  induction s with
  | nil => simp [lastDash]
  | cons c cs ih =>
    simp only [lastDash]
    cases h : lastDash cs with
    | some i =>
      have hmem : '-' ∈ cs := by
        by_contra hcon
        exact Option.noConfusion (h ▸ (ih.mpr hcon))
      simp [hmem]
    | none =>
      have hnm : '-' ∉ cs := ih.mp h
      by_cases hc : c = '-'
      · subst hc
        simp
      · simp [hnm, Ne.symm hc]
        exact hc

/-- A found last dash is a dash in the string: the tail from its index
starts with `'-'`. -/
theorem lastDash_drop {s : List Char} {i : Nat} (h : lastDash s = some i) :
    ∃ t, s.drop i = '-' :: t := by
  induction s generalizing i with
  | nil => simp [lastDash] at h
  | cons c cs ih =>
    rw [lastDash] at h
    cases hcs : lastDash cs with
    | some j =>
      rw [hcs] at h
      obtain rfl : j + 1 = i := by simpa using h
      simpa using ih hcs
    | none =>
      rw [hcs] at h
      by_cases hc : c = '-'
      · simp only [hc, if_true] at h
        obtain rfl : 0 = i := by simpa using h
        exact ⟨cs, by simp [hc]⟩
      · simp [hc] at h

/-- A string without a recognized channel suffix is left unchanged. -/
theorem numericVersion_eq_self {s : List Char} (h : hasChannelSuffix s = false) :
    numericVersion s = s := by
  unfold numericVersion
  split
  · rfl
  · rename_i i hld
    unfold hasChannelSuffix at h
    rw [hld] at h
    simp only [Bool.or_eq_false_iff, decide_eq_false_iff_not] at h
    rw [if_neg (by tauto)]

/-- Claim C10 (amended), part 2 skeleton: on strings with at most one
dash, one strip reaches a dash-free fixed point. -/
theorem numericVersion_once_fixed {s : List Char} (hc : s.count '-' ≤ 1) :
    numericVersion (numericVersion s) = numericVersion s := by
  cases hld : lastDash s with
  | none =>
    have h1 : numericVersion s = s := by unfold numericVersion; rw [hld]
    rw [h1, h1]
  | some i =>
    have hsplit : numericVersion s = (if s.drop (i+1) = "lts".toList ∨
        s.drop (i+1) = "stable".toList ∨ s.drop (i+1) = "testing".toList then
        s.take i else s) := by
      unfold numericVersion; rw [hld]
    by_cases hcond : s.drop (i+1) = "lts".toList ∨ s.drop (i+1) = "stable".toList ∨
        s.drop (i+1) = "testing".toList
    · rw [hsplit, if_pos hcond]
      have hnd : '-' ∉ s.take i := by
        obtain ⟨t, hdrop⟩ := lastDash_drop hld
        have hcnt : s.count '-' = (s.take i).count '-' + (s.drop i).count '-' := by
          conv_lhs => rw [← List.take_append_drop i s]
          exact List.count_append _ _ _
        rw [hdrop] at hcnt
        have : (('-' : Char) :: t).count '-' = t.count '-' + 1 := by
          simp [List.count_cons]
        rw [this] at hcnt
        have hz : (s.take i).count '-' = 0 := by omega
        exact List.count_eq_zero.mp hz
      have : hasChannelSuffix (s.take i) = false := by
        unfold hasChannelSuffix
        rw [(lastDash_eq_none_iff _).mpr hnd]
      exact numericVersion_eq_self this
    · rw [hsplit, if_neg hcond]
      rw [hsplit, if_neg hcond]

/-! ## Claim theorems -/

/-- Claim C10 (corrected), counterexample: numeric-version extraction is not
idempotent on every string — on `"1-lts-lts"` one strip yields
`"1-lts"`, a second strips again to `"1"`. -/
theorem numericVersion_not_idempotent_cex :
    numericVersion (numericVersion "1-lts-lts".toList) ≠
      numericVersion "1-lts-lts".toList := by decide

/-- Claim C10 (amended): numeric-version extraction strips the channel
suffix at the last dash, so (1) any version string with no recognized
`-lts`/`-stable`/`-testing` suffix is returned unchanged, and (2) on
every version string in which the dash occurs at most once (in
particular every `numeric-channel` release string) applying the strip
twice yields the same result as applying it once. -/
theorem numericVersion_strip_spec :
    (∀ s : List Char, hasChannelSuffix s = false → numericVersion s = s)
    ∧ (∀ s : List Char, s.count '-' ≤ 1 →
        numericVersion (numericVersion s) = numericVersion s) :=
  ⟨fun _ h => numericVersion_eq_self h, fun _ hc => numericVersion_once_fixed hc⟩

/-- Claim C10 witness: a real release string (one dash, `-lts` suffix) is
stripped idempotently, and a suffix-free string is unchanged. -/
theorem numericVersion_strip_spec_witness :
    numericVersion (numericVersion "25.8.16.34-lts".toList) =
      numericVersion "25.8.16.34-lts".toList
    ∧ numericVersion "24.1.1.1".toList = "24.1.1.1".toList :=
  ⟨numericVersion_strip_spec.2 "25.8.16.34-lts".toList (by decide),
   numericVersion_strip_spec.1 "24.1.1.1".toList (by decide)⟩

/-- Claim C5 (confirmed): asset resolution is a total function on the
supported matrix — `linux`/`darwin` × `amd64`/`arm64` — yielding an
archive asset on linux and a raw-executable asset on darwin, and every
`(version, OS, arch)` outside the matrix (including an architecture
valid elsewhere paired with the wrong OS) fails with the
unsupported-platform error kind. -/
theorem resolveAsset_matrix_spec :
    ∀ version goos goarch : String,
      (((goos = "linux" ∨ goos = "darwin") ∧ (goarch = "amd64" ∨ goarch = "arm64")) →
        ∃ a : platformAsset, resolveAsset version goos goarch = .ok a ∧
          a.kind = (if goos = "linux" then assetType.archive else assetType.rawBinary))
      ∧ (¬ ((goos = "linux" ∨ goos = "darwin") ∧ (goarch = "amd64" ∨ goarch = "arm64")) →
        ∃ ctx, resolveAsset version goos goarch = .error (.unsupportedPlatform ctx)) := by
  intro version goos goarch
  constructor
  · rintro ⟨hos | hos, harch | harch⟩ <;> subst hos <;> subst harch <;>
      exact ⟨_, rfl, rfl⟩
  · intro h
    by_cases hlin : goos = "linux"
    · subst hlin
      have h1 : goarch ≠ "amd64" := fun hh => h ⟨Or.inl rfl, Or.inl hh⟩
      have h2 : goarch ≠ "arm64" := fun hh => h ⟨Or.inl rfl, Or.inr hh⟩
      exact ⟨"linux/" ++ goarch, by simp [resolveAsset, linuxArch, h1, h2]⟩
    · by_cases hdar : goos = "darwin"
      · subst hdar
        have h1 : goarch ≠ "amd64" := fun hh => h ⟨Or.inr rfl, Or.inl hh⟩
        have h2 : goarch ≠ "arm64" := fun hh => h ⟨Or.inr rfl, Or.inr hh⟩
        exact ⟨"darwin/" ++ goarch, by simp [resolveAsset, darwinAssetName, h1, h2]⟩
      · exact ⟨goos ++ "/" ++ goarch, by simp [resolveAsset, hlin, hdar]⟩

/-- Claim C5 witness: on `linux/amd64` resolution yields an archive asset,
and on `windows/amd64` it fails with the unsupported-platform kind. -/
theorem resolveAsset_matrix_spec_witness :
    (∃ a : platformAsset, resolveAsset "25.8.16.34-lts" "linux" "amd64" = .ok a ∧
      a.kind = (if ("linux" : String) = "linux" then assetType.archive
                else assetType.rawBinary))
    ∧ (∃ ctx, resolveAsset "25.8.16.34-lts" "windows" "amd64" =
        .error (.unsupportedPlatform ctx)) :=
  ⟨(resolveAsset_matrix_spec "25.8.16.34-lts" "linux" "amd64").1
      ⟨Or.inl rfl, Or.inl rfl⟩,
   (resolveAsset_matrix_spec "25.8.16.34-lts" "windows" "amd64").2
      (by rintro ⟨h | h, -⟩ <;> simp at h)⟩

/-- Claim C4 (confirmed): `stopProcess` succeeds on a nil or already-gone
handle; with a live handle, if the wait completes before the timeout a
termination-induced exit state (exit code −1 or 143) is success and any
other exit state is surfaced as-is; if the timeout elapses first, the
group is SIGTERMed then SIGKILLed, the wait is still received, and the
distinct stop-timeout error is returned. -/
theorem stopProcess_stop_spec :
    (∀ env : StopProcEnv, (env.handlePresent = false ∨ env.pgidOk = false) →
      stopProcess env = (.ok (), []))
    ∧ (∀ env : StopProcEnv, env.handlePresent = true → env.pgidOk = true →
        env.timeoutFirst = false →
        ((∀ c : Int, env.waitOutcome = .exited c → (c = -1 ∨ c = 143) →
            stopProcess env = (.ok (), [.signalGroup .sigterm, .awaitWait]))
         ∧ (∀ c : Int, env.waitOutcome = .exited c → ¬(c = -1 ∨ c = 143) →
            stopProcess env = (.error (.exitError c), [.signalGroup .sigterm, .awaitWait]))
         ∧ (env.waitOutcome = .waitFailed →
            stopProcess env = (.error .waitError, [.signalGroup .sigterm, .awaitWait]))
         ∧ (env.waitOutcome = .clean →
            stopProcess env = (.ok (), [.signalGroup .sigterm, .awaitWait]))))
    ∧ (∀ env : StopProcEnv, env.handlePresent = true → env.pgidOk = true →
        env.timeoutFirst = true →
        stopProcess env = (.error .stopTimeout,
          [.signalGroup .sigterm, .signalGroup .sigkill, .awaitWait])) := by
  refine ⟨?_, ?_, ?_⟩
  · rintro env (h | h) <;> simp [stopProcess, h]
  · intro env h1 h2 h3
    refine ⟨?_, ?_, ?_, ?_⟩
    · intro c hwo hc
      simp [stopProcess, h1, h2, h3, hwo, hc]
    · intro c hwo hc
      simp [stopProcess, h1, h2, h3, hwo, hc]
    · intro hwo
      simp [stopProcess, h1, h2, h3, hwo]
    · intro hwo
      simp [stopProcess, h1, h2, h3, hwo]
  · intro env h1 h2 h3
    simp [stopProcess, h1, h2, h3]

/-- Claim C4 witness: a gone handle succeeds; a live process exiting with
code 143 before the timeout succeeds; a hung process is SIGKILLed, its
wait received, and the stop-timeout error returned. -/
theorem stopProcess_stop_spec_witness :
    stopProcess ⟨false, false, false, .clean⟩ = (.ok (), [])
    ∧ stopProcess ⟨true, true, false, .exited 143⟩ =
        (.ok (), [.signalGroup .sigterm, .awaitWait])
    ∧ stopProcess ⟨true, true, true, .clean⟩ = (.error .stopTimeout,
        [.signalGroup .sigterm, .signalGroup .sigkill, .awaitWait]) :=
  ⟨stopProcess_stop_spec.1 ⟨false, false, false, .clean⟩ (Or.inl rfl),
   (stopProcess_stop_spec.2.1 ⟨true, true, false, .exited 143⟩ rfl rfl rfl).1
      143 rfl (Or.inr rfl),
   stopProcess_stop_spec.2.2 ⟨true, true, true, .clean⟩ rfl rfl rfl⟩

/-- The poll loop returns `k` exactly when `k` is the first probed tick
in its window whose probe succeeds. -/
theorem waitLoop_ok_iff (probe : Nat → ProbeOutcome) (cause : Cause) :
    ∀ (fuel k0 k : Nat),
      waitLoop probe cause k0 fuel = .ok k ↔
        (k0 ≤ k ∧ k < k0 + fuel ∧ pingOk (probe k) = true ∧
          ∀ j, k0 ≤ j → j < k → pingOk (probe j) = false) := by
  intro fuel
  induction fuel with
  | zero =>
    intro k0 k
    simp only [waitLoop]
    constructor
    · intro h; cases h
    · rintro ⟨h1, h2, -⟩; omega
  | succ n ih =>
    intro k0 k
    simp only [waitLoop]
    by_cases h0 : pingOk (probe k0) = true
    · rw [if_pos h0]
      constructor
      · intro h
        obtain rfl : k0 = k := by cases h; rfl
        exact ⟨le_refl _, by omega, h0, fun j hj hjk => by omega⟩
      · rintro ⟨h1, h2, h3, h4⟩
        rcases Nat.eq_or_lt_of_le h1 with rfl | hlt
        · rfl
        · exact absurd h0 (by simp [h4 k0 (le_refl _) hlt])
    · rw [if_neg h0]
      rw [ih (k0 + 1) k]
      constructor
      · rintro ⟨h1, h2, h3, h4⟩
        refine ⟨by omega, by omega, h3, fun j hj hjk => ?_⟩
        rcases Nat.eq_or_lt_of_le hj with rfl | hlt
        · simpa using h0
        · exact h4 j hlt hjk
      · rintro ⟨h1, h2, h3, h4⟩
        have hk0 : k0 ≠ k := by
          rintro rfl
          exact h0 h3
        exact ⟨by omega, by omega, h3, fun j hj hjk => h4 j (by omega) hjk⟩

/-- The poll loop fails with the cancellation cause when every tick in
its window probes unsuccessfully. -/
theorem waitLoop_error (probe : Nat → ProbeOutcome) (cause : Cause) :
    ∀ (fuel k0 : Nat),
      (∀ j, k0 ≤ j → j < k0 + fuel → pingOk (probe j) = false) →
      waitLoop probe cause k0 fuel = .error (.notReady cause) := by
  intro fuel
  induction fuel with
  | zero => intro k0 _; simp [waitLoop]
  | succ n ih =>
    intro k0 h
    simp only [waitLoop]
    rw [if_neg (by simp [h k0 (le_refl _) (by omega)])]
    exact ih (k0 + 1) (fun j hj hjk => h j (by omega) (by omega))

/-- Claim C8 (corrected), counterexample: a probe is *not* counted as
success on any 2xx status — HTTP 204 is a 2xx status, yet the prober
classifies it as not-ready and a target answering 204 on every probe
runs into the deadline error instead of succeeding on the first probe. -/
theorem waitForReady_2xx_cex :
    (200 ≤ 204 ∧ 204 < 300)
    ∧ pingOk (.status 204) = false
    ∧ waitForReady (fun _ => .status 204) 5 .deadlineExceeded =
        .error (.notReady .deadlineExceeded) :=
  ⟨by decide, by decide, by decide⟩

/-- Claim C8 (amended): the readiness prober performs one immediate probe
(tick 0) before its fixed-interval loop; every probe treats network
errors, request timeouts and non-`200` statuses identically as
not-yet-ready — success is exactly HTTP status 200, not any 2xx; the
loop returns on the first successful probe; and when every probe up to
the deadline fails it returns the error carrying the cancellation
cause. -/
theorem waitForReady_ready_spec :
    (∀ o : ProbeOutcome, pingOk o = true ↔ o = .status 200)
    ∧ (∀ (probe : Nat → ProbeOutcome) (ticks : Nat) (cause : Cause) (k : Nat),
        waitForReady probe ticks cause = .ok k ↔
          (k ≤ ticks ∧ pingOk (probe k) = true ∧
            ∀ j, j < k → pingOk (probe j) = false))
    ∧ (∀ (probe : Nat → ProbeOutcome) (ticks : Nat) (cause : Cause),
        (∀ k, k ≤ ticks → pingOk (probe k) = false) →
        waitForReady probe ticks cause = .error (.notReady cause)) := by
  refine ⟨?_, ?_, ?_⟩
  · intro o
    cases o with
    | netError => simp [pingOk]
    | reqTimeout => simp [pingOk]
    | status code => simp [pingOk]
  · intro probe ticks cause k
    unfold waitForReady
    by_cases h0 : pingOk (probe 0) = true
    · rw [if_pos h0]
      constructor
      · intro h
        obtain rfl : (0 : Nat) = k := by cases h; rfl
        exact ⟨Nat.zero_le _, h0, fun j hj => by omega⟩
      · rintro ⟨h1, h2, h3⟩
        rcases Nat.eq_zero_or_pos k with rfl | hpos
        · rfl
        · exact absurd h0 (by simp [h3 0 hpos])
    · rw [if_neg h0]
      rw [waitLoop_ok_iff probe cause ticks 1 k]
      constructor
      · rintro ⟨h1, h2, h3, h4⟩
        refine ⟨by omega, h3, fun j hj => ?_⟩
        rcases Nat.eq_zero_or_pos j with rfl | hpos
        · simpa using h0
        · exact h4 j hpos hj
      · rintro ⟨h1, h2, h3⟩
        have hk : k ≠ 0 := by
          rintro rfl
          exact h0 h2
        exact ⟨by omega, by omega, h2, fun j hj hjk => h3 j hjk⟩
  · intro probe ticks cause h
    unfold waitForReady
    rw [if_neg (by simp [h 0 (Nat.zero_le _)])]
    exact waitLoop_error probe cause ticks 1 (fun j hj hjk => h j (by omega))

/-- Claim C8 witness: with a probe that first succeeds (status 200) at
tick 2 the prober returns tick 2, and with a probe that always errors it
returns the deadline error carrying the cause. -/
theorem waitForReady_ready_spec_witness :
    waitForReady (fun k => if k = 2 then .status 200 else .netError) 5
        .deadlineExceeded = .ok 2
    ∧ waitForReady (fun _ => .netError) 3 .canceled =
        .error (.notReady .canceled) :=
  ⟨(waitForReady_ready_spec.2.1 (fun k => if k = 2 then .status 200 else .netError)
      5 .deadlineExceeded 2).mpr (by decide),
   waitForReady_ready_spec.2.2 (fun _ => .netError) 3 .canceled (by decide)⟩

/-- Claim C6 (corrected), counterexample: a digest consisting of one line
`hash  filename` whose hash field is 128 characters long is accepted for
a *different* requested filename — the requested name is absent from
every entry and the line is not a bare hash without filename (it has two
fields), so the claim requires the hash-not-found error, yet parsing
succeeds and returns the foreign entry's hash. -/
theorem parseSHA512_foreign_line_cex :
    ((splitLines (trimSpace (List.replicate 128 'A' ++ "  other.tgz\n".toList))).all
        (fun l => !entryMatches "wanted.tgz".toList l) = true)
    ∧ 2 ≤ (fields (List.replicate 128 'A' ++ "  other.tgz\n".toList)).length
    ∧ parseSHA512 (List.replicate 128 'A' ++ "  other.tgz\n".toList)
        "wanted.tgz".toList = .ok (List.replicate 128 'a') :=
  ⟨by decide, by decide, by decide⟩

/-- Claim C6 (amended): parsing a digest for a requested filename returns
the lower-cased hash of the first `hash  filename` entry for it; when
the filename is absent from every entry it fails with the hash-not-found
error — except that input whose trimmed form is exactly one line whose
first whitespace-separated field is 128 characters long (hex digits not
verified, any trailing filename field ignored) is accepted regardless of
the requested filename, its first field returned lower-cased. -/
theorem parseSHA512_digest_spec :
    ∀ content filename : List Char,
      (∀ line, (splitLines (trimSpace content)).find? (entryMatches filename) =
          some line →
        parseSHA512 content filename = .ok (toLowerLC ((fields line).getD 0 [])))
      ∧ ((∀ line ∈ splitLines (trimSpace content),
            entryMatches filename line = false) →
         ¬((splitLines (trimSpace content)).length = 1 ∧
            1 ≤ (fields ((splitLines (trimSpace content)).getD 0 [])).length ∧
            ((fields ((splitLines (trimSpace content)).getD 0 [])).getD 0 []).length
              = 128) →
         parseSHA512 content filename = .error (.sha512NotFound filename))
      ∧ ((∀ line ∈ splitLines (trimSpace content),
            entryMatches filename line = false) →
         (splitLines (trimSpace content)).length = 1 →
         1 ≤ (fields ((splitLines (trimSpace content)).getD 0 [])).length →
         ((fields ((splitLines (trimSpace content)).getD 0 [])).getD 0 []).length
            = 128 →
         parseSHA512 content filename =
           .ok (toLowerLC ((fields ((splitLines (trimSpace content)).getD 0
             [])).getD 0 []))) := by
  intro content filename
  refine ⟨?_, ?_, ?_⟩
  · intro line h
    simp only [parseSHA512]
    rw [h]
  · intro habs hnot
    have hfind : (splitLines (trimSpace content)).find? (entryMatches filename) =
        none :=
      List.find?_eq_none.mpr (fun x hx => by simp [habs x hx])
    simp only [parseSHA512]
    rw [hfind]
    by_cases hlen : (splitLines (trimSpace content)).length = 1
    · simp only [hlen, if_true]
      rw [if_neg (fun hc => hnot ⟨hlen, hc.1, hc.2⟩)]
    · simp only [hlen, if_false]
  · intro habs hlen h1 h128
    have hfind : (splitLines (trimSpace content)).find? (entryMatches filename) =
        none :=
      List.find?_eq_none.mpr (fun x hx => by simp [habs x hx])
    simp only [parseSHA512]
    rw [hfind]
    simp only [hlen, if_true]
    rw [if_pos ⟨h1, h128⟩]

/-- Claim C6 witness: a present filename returns its entry's hash
lower-cased, and a single bare 128-character line is accepted for an
unrelated filename. -/
theorem parseSHA512_digest_spec_witness :
    parseSHA512 "ABC123DEF456  myfile.tgz\n".toList "myfile.tgz".toList =
      .ok (toLowerLC ((fields "ABC123DEF456  myfile.tgz".toList).getD 0 []))
    ∧ parseSHA512 (List.replicate 128 'B') "unrelated.tgz".toList =
      .ok (toLowerLC ((fields ((splitLines (trimSpace (List.replicate 128
        'B'))).getD 0 [])).getD 0 [])) :=
  ⟨(parseSHA512_digest_spec "ABC123DEF456  myfile.tgz\n".toList
      "myfile.tgz".toList).1 "ABC123DEF456  myfile.tgz".toList (by decide),
   (parseSHA512_digest_spec (List.replicate 128 'B')
      "unrelated.tgz".toList).2.2 (by decide) (by decide) (by decide) (by decide)⟩

/-- Claim C7 (code bug), evaluation at the failing input: rendering the
single-node configuration with the settings override
`max_server_memory_usage = 2147483648` produces a document in which the
`max_server_memory_usage` element occurs *twice* — the hard-coded 1 GiB
default from the template plus the appended user entry — whereas the
claim (and the repository's own `TestWriteServerConfig_OverrideMaxMemory`)
requires exactly one occurrence carrying the user's value. -/
theorem writeServerConfig_duplicate_default :
    ∃ doc : String,
      writeServerConfig "/t" 19000 18123
          [("max_server_memory_usage", "2147483648")] = .ok doc
      ∧ countOccur "<max_server_memory_usage>".toList doc.toList = 2
      ∧ countOccur
          "<max_server_memory_usage>2147483648</max_server_memory_usage>".toList
          doc.toList = 1
      ∧ countOccur
          "<max_server_memory_usage>1073741824</max_server_memory_usage>".toList
          doc.toList = 1 :=
  ⟨renderServerConfig 19000 18123 "/t/data" "/t/tmp" "/t/user_files"
      "/t/format_schemas" [("max_server_memory_usage", "2147483648")],
   by decide, by decide, by decide, by decide⟩

/-! ## Helpers for the cluster-configuration claim -/

/-- Go `pat` occurs as a contiguous substring of `s`. -/
def containsStr (pat s : String) : Prop :=
  pat.data <:+: s.data

/-- Every string contains itself. -/
theorem containsStr_refl (p : String) : containsStr p p :=
  List.infix_refl _

/-- Containment is preserved by appending on the right. -/
theorem containsStr_left {p s : String} (t : String) (h : containsStr p s) :
    containsStr p (s ++ t) := by
  unfold containsStr at *
  rw [String.data_append]
  exact h.trans ⟨[], t.data, by simp⟩

/-- Containment is preserved by appending on the left. -/
theorem containsStr_right {p t : String} (s : String) (h : containsStr p t) :
    containsStr p (s ++ t) := by
  unfold containsStr at *
  rw [String.data_append]
  exact h.trans ⟨s.data, [], by simp⟩

/-- The five ports a cluster node binds. -/
def nodePortList (n : clusterNodePorts) : List Nat :=
  [n.TCP, n.HTTP, n.Interserver, n.Keeper, n.KeeperRaft]

/-- Selecting one port per node yields a sublist of the flattened port
multiset. -/
theorem map_sel_sublist (sel : clusterNodePorts → Nat)
    (hmem : ∀ n, sel n ∈ nodePortList n) :
    ∀ l : List clusterNodePorts, (l.map sel).Sublist (l.flatMap nodePortList) := by
  intro l
  induction l with
  | nil => simp
  | cons n ns ih =>
    rw [List.map_cons, List.flatMap_cons,
      show sel n :: ns.map sel = [sel n] ++ ns.map sel from rfl]
    exact List.Sublist.append (List.singleton_sublist.mpr (hmem n)) ih

/-- When the flattened port multiset of a topology has no duplicates,
any fixed port of two distinct nodes differs. -/
theorem sel_getElem_ne {l : List clusterNodePorts}
    (hnd : (l.flatMap nodePortList).Nodup)
    (sel : clusterNodePorts → Nat) (hmem : ∀ n, sel n ∈ nodePortList n)
    {i j : Nat} (hi : i < l.length) (hj : j < l.length) (hij : i ≠ j) :
    sel l[i] ≠ sel l[j] := by
  have hmap : (l.map sel).Nodup := (map_sel_sublist sel hmem l).nodup hnd
  intro he
  have hi' : i < (l.map sel).length := by simpa using hi
  have hj' : j < (l.map sel).length := by simpa using hj
  have : (l.map sel)[i] = (l.map sel)[j] := by
    simpa [List.getElem_map] using he
  exact hij (hmap.getElem_inj_iff.mp this)

/-- Claim C3 (confirmed): in every topology of `N ≥ 2` nodes, the rendered
configuration of node `i` carries node `i`'s own TCP/HTTP/interserver/
keeper bindings (pairwise distinct across nodes when the allocated port
multiset has no duplicates), a raft server id `i+1` that is unique per
node and lies in `{1..N}`, and a replica macro derived from that id;
while all nodes' files carry an identical raft-membership list (ids
`1..N` paired with all `N` raft ports in node order), an identical
coordination-client list (all `N` keeper client ports) and an identical
remote-replica list (all `N` client TCP ports, same order), each of
which appears verbatim in the rendered document. -/
theorem clusterNodeConfig_rendering_spec :
    ∀ (topo : clusterTopology) (dirI dirJ : String) (i j : Nat),
      2 ≤ topo.Nodes.length → (hi : i < topo.Nodes.length) →
      (hj : j < topo.Nodes.length) →
      let bI := buildClusterNodeConfigData dirI i topo
      let bJ := buildClusterNodeConfigData dirJ j topo
      (bI.TCPPort = topo.Nodes[i].TCP ∧ bI.HTTPPort = topo.Nodes[i].HTTP
        ∧ bI.InterserverPort = topo.Nodes[i].Interserver
        ∧ bI.KeeperPort = topo.Nodes[i].Keeper)
      ∧ (bI.ServerID = i + 1 ∧ 1 ≤ bI.ServerID ∧ bI.ServerID ≤ topo.Nodes.length)
      ∧ (i ≠ j → bI.ServerID ≠ bJ.ServerID)
      ∧ bI.ReplicaName = replicaName bI.ServerID
      ∧ (bI.RaftServers = bJ.RaftServers ∧ bI.KeeperNodes = bJ.KeeperNodes
        ∧ bI.ClusterReplicas = bJ.ClusterReplicas)
      ∧ (bI.RaftServers.map (fun r => r.ID) =
            (List.range topo.Nodes.length).map (fun k => k + 1)
        ∧ bI.RaftServers.map (fun r => r.Port) =
            topo.Nodes.map (fun n => n.KeeperRaft)
        ∧ bI.KeeperNodes.map (fun k => k.Port) = topo.Nodes.map (fun n => n.Keeper)
        ∧ bI.ClusterReplicas.map (fun r => r.Port) = topo.Nodes.map (fun n => n.TCP))
      ∧ ((topo.Nodes.flatMap nodePortList).Nodup → i ≠ j →
          (bI.TCPPort ≠ bJ.TCPPort ∧ bI.HTTPPort ≠ bJ.HTTPPort
            ∧ bI.InterserverPort ≠ bJ.InterserverPort
            ∧ bI.KeeperPort ≠ bJ.KeeperPort))
      ∧ (containsStr ("<tcp_port>" ++ toString bI.TCPPort ++ "</tcp_port>")
            (renderClusterNodeConfig bI)
        ∧ containsStr ("<server_id>" ++ toString bI.ServerID ++ "</server_id>")
            (renderClusterNodeConfig bI)
        ∧ containsStr ("<replica>" ++ bI.ReplicaName ++ "</replica>")
            (renderClusterNodeConfig bI)
        ∧ containsStr (raftBlock bI.RaftServers) (renderClusterNodeConfig bI)
        ∧ containsStr (keeperBlock bI.KeeperNodes) (renderClusterNodeConfig bI)
        ∧ containsStr (replicaBlock bI.ClusterReplicas) (renderClusterNodeConfig bI)
        ∧ raftBlock bI.RaftServers = raftBlock bJ.RaftServers
        ∧ keeperBlock bI.KeeperNodes = keeperBlock bJ.KeeperNodes
        ∧ replicaBlock bI.ClusterReplicas = replicaBlock bJ.ClusterReplicas) := by
  intro topo dirI dirJ i j hN hi hj
  intro bI bJ
  refine ⟨?_, ?_, ?_, ?_, ?_, ?_, ?_, ?_⟩
  · refine ⟨?_, ?_, ?_, ?_⟩ <;>
      simp [bI, buildClusterNodeConfigData, List.getElem?_eq_getElem hi]
  · refine ⟨rfl, ?_, ?_⟩
    · show 1 ≤ i + 1
      omega
    · show i + 1 ≤ topo.Nodes.length
      omega
  · intro hij
    show i + 1 ≠ j + 1
    omega
  · rfl
  · exact ⟨rfl, rfl, rfl⟩
  · refine ⟨?_, ?_, ?_, ?_⟩
    · apply List.ext_getElem
      · simp [bI, buildClusterNodeConfigData]
      · intro k h1 h2
        simp [bI, buildClusterNodeConfigData, List.getElem_mapIdx]
    · apply List.ext_getElem
      · simp [bI, buildClusterNodeConfigData]
      · intro k h1 h2
        simp [bI, buildClusterNodeConfigData, List.getElem_mapIdx]
    · apply List.ext_getElem
      · simp [bI, buildClusterNodeConfigData]
      · intro k h1 h2
        simp [bI, buildClusterNodeConfigData]
    · apply List.ext_getElem
      · simp [bI, buildClusterNodeConfigData]
      · intro k h1 h2
        simp [bI, buildClusterNodeConfigData]
  · intro hnd hij
    refine ⟨?_, ?_, ?_, ?_⟩ <;>
    · show _ ≠ _
      simp only [bI, bJ, buildClusterNodeConfigData,
        List.getD_eq_getElem _ _ hi, List.getD_eq_getElem _ _ hj]
      exact sel_getElem_ne hnd _ (fun n => by simp [nodePortList]) hi hj hij
  · refine ⟨?_, ?_, ?_, ?_, ?_, ?_, rfl, rfl, rfl⟩ <;>
    · unfold renderClusterNodeConfig
      repeat
        first
        | exact containsStr_right _ (containsStr_refl _)
        | apply containsStr_left

/-- Claim C3 witness: in a concrete 3-node topology with 15 distinct
ports, node 1's data has raft id 2, the same raft-membership list as
node 0, and a TCP binding different from node 0's. -/
theorem clusterNodeConfig_rendering_spec_witness :
    (buildClusterNodeConfigData "/c1" 1
        ⟨[⟨9001, 9002, 9003, 9004, 9005⟩, ⟨9006, 9007, 9008, 9009, 9010⟩,
          ⟨9011, 9012, 9013, 9014, 9015⟩], []⟩).ServerID = 2
    ∧ (buildClusterNodeConfigData "/c1" 1
        ⟨[⟨9001, 9002, 9003, 9004, 9005⟩, ⟨9006, 9007, 9008, 9009, 9010⟩,
          ⟨9011, 9012, 9013, 9014, 9015⟩], []⟩).RaftServers =
      (buildClusterNodeConfigData "/c0" 0
        ⟨[⟨9001, 9002, 9003, 9004, 9005⟩, ⟨9006, 9007, 9008, 9009, 9010⟩,
          ⟨9011, 9012, 9013, 9014, 9015⟩], []⟩).RaftServers
    ∧ (buildClusterNodeConfigData "/c1" 1
        ⟨[⟨9001, 9002, 9003, 9004, 9005⟩, ⟨9006, 9007, 9008, 9009, 9010⟩,
          ⟨9011, 9012, 9013, 9014, 9015⟩], []⟩).TCPPort ≠
      (buildClusterNodeConfigData "/c0" 0
        ⟨[⟨9001, 9002, 9003, 9004, 9005⟩, ⟨9006, 9007, 9008, 9009, 9010⟩,
          ⟨9011, 9012, 9013, 9014, 9015⟩], []⟩).TCPPort := by
  have h := clusterNodeConfig_rendering_spec
    ⟨[⟨9001, 9002, 9003, 9004, 9005⟩, ⟨9006, 9007, 9008, 9009, 9010⟩,
      ⟨9011, 9012, 9013, 9014, 9015⟩], []⟩ "/c1" "/c0" 1 0
    (by decide) (by decide) (by decide)
  exact ⟨h.2.1.1, h.2.2.2.2.1.1,
    (h.2.2.2.2.2.2.1 (by decide) (by decide)).1⟩

/-- Claim C9 (confirmed): `Start` on an already-started instance or
cluster fails with the respective already-started error kind and changes
nothing — the state is returned untouched and no undo action is recorded
or executed; `Stop` on a never-started (or already stopped) instance or
cluster fails with the respective not-started error kind, with the state
unchanged and no node visited. -/
theorem lifecycle_reject_spec :
    (∀ (cfg : Config) (e : EmbeddedState) (env : InstanceStartEnv),
        e.started = true →
        instanceStart cfg e env = ⟨.error .serverAlreadyStarted, e, [], []⟩)
    ∧ (∀ (c : ClusterState) (env : ClusterStartEnv), c.started = true →
        clusterStart c env = ⟨.error .clusterAlreadyStarted, c, [], []⟩)
    ∧ (∀ (cfg : Config) (e : EmbeddedState) (env : InstanceStopEnv),
        e.started = false →
        instanceStop cfg e env = (.error [.serverNotStarted], e))
    ∧ (∀ (c : ClusterState) (env : ClusterStopEnv), c.started = false →
        clusterStop c env = (.error [.clusterNotStarted], c, [])) := by
  refine ⟨?_, ?_, ?_, ?_⟩
  · intro cfg e env h
    simp [instanceStart, h]
  · intro c env h
    simp [clusterStart, h]
  · intro cfg e env h
    simp [instanceStop, h]
  · intro c env h
    simp [clusterStop, h]

/-- Claim C9 witness: concrete started/stopped states with all-succeeding
oracles are rejected with the correct kinds, unchanged. -/
theorem lifecycle_reject_spec_witness :
    instanceStart {} { started := true }
        ⟨.ok "bin", fun _ => .ok 1, .ok (), .ok "/t", .ok "cfg", .ok 5, .ok ()⟩
      = ⟨.error .serverAlreadyStarted, { started := true }, [], []⟩
    ∧ clusterStart ⟨2, true, []⟩
        ⟨.ok "bin", fun _ => .ok 1, fun _ => .ok "/t", fun _ => .ok "c",
         fun _ => .ok 7, fun _ => .ok (), .ok ()⟩
      = ⟨.error .clusterAlreadyStarted, ⟨2, true, []⟩, [], []⟩
    ∧ instanceStop {} {} ⟨.ok (), .ok ()⟩ = (.error [.serverNotStarted], {})
    ∧ clusterStop ⟨2, false, []⟩ ⟨fun _ => .ok (), fun _ => .ok ()⟩
      = (.error [.clusterNotStarted], ⟨2, false, []⟩, []) :=
  ⟨lifecycle_reject_spec.1 _ _ _ rfl, lifecycle_reject_spec.2.1 _ _ rfl,
   lifecycle_reject_spec.2.2.1 _ _ _ rfl, lifecycle_reject_spec.2.2.2 _ _ rfl⟩

/-- Claim C2 (confirmed): `Cluster.Stop` on a started `N`-node cluster
visits the nodes in strictly reverse index order (`N-1` first, `0`
last); one node's teardown failure never prevents the stop attempt on
the rest — all per-node errors are collected into the single aggregated
result; every stop failure of node `i` appears (wrapped with its node
index) in the aggregate; when every teardown step succeeds the result is
success; and in all cases the cluster ends marked stopped with its node
list cleared. -/
theorem clusterStop_teardown_spec :
    ∀ (c : ClusterState) (env : ClusterStopEnv), c.started = true →
      (clusterStop c env).2.2 = (List.range c.nodes.length).reverse
      ∧ (clusterStop c env).2.1.started = false
      ∧ (clusterStop c env).2.1.nodes = []
      ∧ (clusterStop c env).1 =
          joinErrors (((List.range c.nodes.length).reverse).flatMap
            (nodeStopErrs c env))
      ∧ (∀ (i : Nat) (e : Err), i < c.nodes.length → env.stopProc i = .error e →
          ∃ es, (clusterStop c env).1 = .error es ∧
            Err.wrap ("node " ++ toString i) e ∈ es)
      ∧ ((∀ i, i < c.nodes.length →
            env.stopProc i = .ok () ∧
            ((c.nodes.getD i default).tmpDir ≠ "" → env.removeDir i = .ok ())) →
          (clusterStop c env).1 = .ok ()) := by
  intro c env h
  refine ⟨by simp [clusterStop, h], by simp [clusterStop, h],
    by simp [clusterStop, h], by simp [clusterStop, h], ?_, ?_⟩
  · intro i e hi herr
    refine ⟨((List.range c.nodes.length).reverse).flatMap (nodeStopErrs c env),
      ?_, ?_⟩
    · have hmem : Err.wrap ("node " ++ toString i) e ∈
          ((List.range c.nodes.length).reverse).flatMap (nodeStopErrs c env) :=
        List.mem_flatMap.mpr ⟨i, by simp [hi], by simp [nodeStopErrs, herr]⟩
      have hne : ((List.range c.nodes.length).reverse).flatMap
          (nodeStopErrs c env) ≠ [] := by
        intro hnil
        rw [hnil] at hmem
        cases hmem
      simp [clusterStop, h, joinErrors, hne]
    · exact List.mem_flatMap.mpr ⟨i, by simp [hi], by simp [nodeStopErrs, herr]⟩
  · intro hall
    have hnil : ∀ x ∈ (List.range c.nodes.length).reverse,
        nodeStopErrs c env x = [] := by
      intro x hx
      have hx' : x < c.nodes.length := by simpa using hx
      obtain ⟨h1, h2⟩ := hall x hx'
      simp only [nodeStopErrs, h1, List.nil_append]
      split_ifs with htd
      · rw [h2 htd]
      · rfl
    have : ((List.range c.nodes.length).reverse).flatMap (nodeStopErrs c env)
        = [] := List.flatMap_eq_nil_iff.mpr hnil
    simp [clusterStop, h, this, joinErrors]

/-- Claim C2 witness: a started 3-node cluster where node 1's process stop
fails is torn down in order `[2, 1, 0]`, ends stopped with no nodes, and
the aggregate carries node 1's wrapped error. -/
theorem clusterStop_teardown_spec_witness :
    (clusterStop ⟨3, true, [{ tmpDir := "/a" }, { tmpDir := "/b" },
        { tmpDir := "/c" }]⟩
      ⟨fun i => if i = 1 then .error (.io "boom") else .ok (),
       fun _ => .ok ()⟩).2.2 = [2, 1, 0]
    ∧ (clusterStop ⟨3, true, [{ tmpDir := "/a" }, { tmpDir := "/b" },
        { tmpDir := "/c" }]⟩
      ⟨fun i => if i = 1 then .error (.io "boom") else .ok (),
       fun _ => .ok ()⟩).2.1.started = false
    ∧ (∃ es, (clusterStop ⟨3, true, [{ tmpDir := "/a" }, { tmpDir := "/b" },
        { tmpDir := "/c" }]⟩
      ⟨fun i => if i = 1 then .error (.io "boom") else .ok (),
       fun _ => .ok ()⟩).1 = .error es ∧
        Err.wrap ("node " ++ toString 1) (.io "boom") ∈ es) := by
  have h := clusterStop_teardown_spec ⟨3, true, [{ tmpDir := "/a" },
      { tmpDir := "/b" }, { tmpDir := "/c" }]⟩
    ⟨fun i => if i = 1 then .error (.io "boom") else .ok (),
     fun _ => .ok ()⟩ rfl
  exact ⟨h.1, h.2.1, h.2.2.2.2.1 1 (.io "boom") (by decide) (by decide)⟩

/-- The cleanup stack carried by a `startNodes` outcome, in both the
failure and the success case. -/
def clOf (r : Except (Err × List Action) (List EmbeddedState × List Action)) :
    List Action :=
  match r with
  | .error (_, cl) => cl
  | .ok (_, cl) => cl

/-- Every directory-removal undo action on the stack after the node-start
loop is either inherited from the incoming stack or the removal of a
temp directory the loop itself created. -/
theorem startNodes_removeDir_mem (env : ClusterStartEnv)
    (ports : List clusterNodePorts) :
    ∀ (count i : Nat) (cl0 : List Action) (t : String),
      Action.removeDir t ∈ clOf (startNodes env ports i count cl0) →
      Action.removeDir t ∈ cl0 ∨
        ∃ k, i ≤ k ∧ k < i + count ∧ env.mkdirTemp k = .ok t := by
  intro count
  induction count with
  | zero =>
    intro i cl0 t hmem
    exact Or.inl hmem
  | succ n ih =>
    intro i cl0 t hmem
    simp only [startNodes] at hmem
    cases h1 : env.mkdirTemp i with
    | error e1 =>
      simp only [h1] at hmem
      exact Or.inl hmem
    | ok t1 =>
      simp only [h1] at hmem
      cases h2 : env.nodeConfig i with
      | error e2 =>
        simp only [h2, clOf] at hmem
        rcases List.mem_append.mp hmem with hl | hr
        · exact Or.inl hl
        · obtain rfl : t = t1 := by
            cases List.mem_singleton.mp hr
            rfl
          exact Or.inr ⟨i, le_refl _, by omega, h1⟩
      | ok cfgPath =>
        simp only [h2] at hmem
        cases h3 : env.startProc i with
        | error e3 =>
          simp only [h3, clOf] at hmem
          rcases List.mem_append.mp hmem with hl | hr
          · exact Or.inl hl
          · obtain rfl : t = t1 := by
              cases List.mem_singleton.mp hr
              rfl
            exact Or.inr ⟨i, le_refl _, by omega, h1⟩
        | ok pid =>
          simp only [h3] at hmem
          have hmem2 : Action.removeDir t ∈
              clOf (startNodes env ports (i + 1) n
                (cl0 ++ [Action.removeDir t1] ++ [Action.stopProc pid])) := by
            cases hrec : startNodes env ports (i + 1) n
                (cl0 ++ [Action.removeDir t1] ++ [Action.stopProc pid]) with
            | error r =>
              simp only [hrec] at hmem
              simpa [clOf] using hmem
            | ok p =>
              simp only [hrec] at hmem
              obtain ⟨nodes, cl⟩ := p
              simpa [clOf] using hmem
          rcases ih (i + 1) _ t hmem2 with hin | ⟨k, hk1, hk2, hk3⟩
          · rcases List.mem_append.mp hin with hin2 | hsp
            · rcases List.mem_append.mp hin2 with hl | hr
              · exact Or.inl hl
              · obtain rfl : t = t1 := by
                  cases List.mem_singleton.mp hr
                  rfl
                exact Or.inr ⟨i, le_refl _, by omega, h1⟩
            · cases List.mem_singleton.mp hsp
          · exact Or.inr ⟨k, by omega, by omega, hk3⟩

/-- A failed single-node `Start` either succeeds with nothing executed,
or leaves the state untouched and runs the recorded stack in reverse. -/
theorem instanceStart_shape (cfg : Config) (e : EmbeddedState)
    (env : InstanceStartEnv) (h : e.started = false) :
    ((instanceStart cfg e env).result = .ok ()
      ∧ (instanceStart cfg e env).executed = [])
    ∨ ((instanceStart cfg e env).state = e
      ∧ (instanceStart cfg e env).executed =
          (instanceStart cfg e env).recorded.reverse) := by
  unfold instanceStart
  simp only [h, Bool.false_eq_true, if_false]
  repeat' split
  all_goals simp

/-- A successful directory step only pushes a removal undo for the temp
directory it created, never for a caller-supplied data path. -/
theorem dirStep_ok_mem {cfg : Config} {env : InstanceStartEnv} {tmp : String}
    {cleanups : List Action} {t : String}
    (heq : dirStep cfg env = .ok (tmp, cleanups))
    (hmem : Action.removeDir t ∈ cleanups) :
    cfg.dataPath = "" ∧ env.mkdirTemp = .ok t := by
  unfold dirStep at heq
  split at heq
  · split at heq
    · cases heq
    · cases heq
      cases hmem
  · rename_i hdp
    split at heq
    · cases heq
    · rename_i t1 heq1
      cases heq
      cases List.mem_singleton.mp hmem
      exact ⟨by simpa using hdp, heq1⟩

/-- Every directory-removal undo recorded by a single-node `Start`
attempt is the removal of the temp directory this attempt created — and
is only ever recorded when no caller-supplied data path is configured. -/
theorem instanceStart_recorded (cfg : Config) (e : EmbeddedState)
    (env : InstanceStartEnv) (h : e.started = false) :
    ∀ t, Action.removeDir t ∈ (instanceStart cfg e env).recorded →
      cfg.dataPath = "" ∧ env.mkdirTemp = .ok t := by
  unfold instanceStart
  simp only [h, Bool.false_eq_true, if_false]
  intro t
  repeat' split
  all_goals intro hmem
  all_goals
    first
    | exact dirStep_ok_mem (by assumption) hmem
    | (rcases List.mem_append.mp hmem with hh | hh
       · exact dirStep_ok_mem (by assumption) hh
       · exact absurd hh (by simp))
    | cases hmem

/-- A failed cluster `Start` either succeeds with nothing executed, or
leaves the state untouched and runs the recorded stack in reverse. -/
theorem clusterStart_shape (c : ClusterState) (env : ClusterStartEnv)
    (h : c.started = false) :
    ((clusterStart c env).result = .ok ()
      ∧ (clusterStart c env).executed = [])
    ∨ ((clusterStart c env).state = c
      ∧ (clusterStart c env).executed =
          (clusterStart c env).recorded.reverse) := by
  unfold clusterStart
  simp only [h, Bool.false_eq_true, if_false]
  repeat' split
  all_goals simp

/-- A removal undo on the stack of a failed node-start loop run from an
empty stack names a temp directory some node's creation step produced. -/
theorem startNodes_error_mem {env : ClusterStartEnv}
    {ports : List clusterNodePorts} {count : Nat} {err : Err}
    {cl : List Action} {t : String}
    (heq : startNodes env ports 0 count [] = .error (err, cl))
    (hmem : Action.removeDir t ∈ cl) :
    ∃ k, k < count ∧ env.mkdirTemp k = .ok t := by
  have := startNodes_removeDir_mem env ports count 0 [] t (by
    rw [heq]
    simpa [clOf] using hmem)
  rcases this with hin | ⟨k, -, hk2, hk3⟩
  · cases hin
  · exact ⟨k, by omega, hk3⟩

/-- Same as `startNodes_error_mem` for a loop that completed. -/
theorem startNodes_ok_mem {env : ClusterStartEnv}
    {ports : List clusterNodePorts} {count : Nat}
    {nodes : List EmbeddedState} {cl : List Action} {t : String}
    (heq : startNodes env ports 0 count [] = .ok (nodes, cl))
    (hmem : Action.removeDir t ∈ cl) :
    ∃ k, k < count ∧ env.mkdirTemp k = .ok t := by
  have := startNodes_removeDir_mem env ports count 0 [] t (by
    rw [heq]
    simpa [clOf] using hmem)
  rcases this with hin | ⟨k, -, hk2, hk3⟩
  · cases hin
  · exact ⟨k, by omega, hk3⟩

/-- Every directory-removal undo recorded by a cluster `Start` attempt
is the removal of a per-node temp directory created during the attempt. -/
theorem clusterStart_recorded (c : ClusterState) (env : ClusterStartEnv)
    (h : c.started = false) :
    ∀ t, Action.removeDir t ∈ (clusterStart c env).recorded →
      ∃ k, k < c.replicas ∧ env.mkdirTemp k = .ok t := by
  unfold clusterStart
  simp only [h, Bool.false_eq_true, if_false]
  intro t
  repeat' split
  all_goals intro hmem
  all_goals
    first
    | exact startNodes_error_mem (by assumption) hmem
    | exact startNodes_ok_mem (by assumption) hmem
    | cases hmem

/-- Claim C1 (confirmed): whenever any step of a single-node or cluster
`Start` fails (binary acquisition, port allocation, directory creation,
config rendering, process launch, readiness/quorum probing), `Start`
returns the error with the state exactly as before the call — in
particular still not started; the undo actions recorded during the
attempt are executed in strictly reverse recording order; every
recorded directory removal names a temp directory this very attempt
created (for a cluster: one of the per-node temp directories); and when
a caller-supplied persistent data path is configured no directory
removal is executed at all. -/
theorem startFailure_atomic_spec :
    (∀ (cfg : Config) (e : EmbeddedState) (env : InstanceStartEnv) (err : Err),
        e.started = false →
        (instanceStart cfg e env).result = .error err →
        (instanceStart cfg e env).state = e
        ∧ (instanceStart cfg e env).state.started = false
        ∧ (instanceStart cfg e env).executed =
            (instanceStart cfg e env).recorded.reverse
        ∧ (∀ t, Action.removeDir t ∈ (instanceStart cfg e env).recorded →
            cfg.dataPath = "" ∧ env.mkdirTemp = .ok t)
        ∧ (cfg.dataPath ≠ "" →
            ∀ t, Action.removeDir t ∉ (instanceStart cfg e env).executed))
    ∧ (∀ (c : ClusterState) (env : ClusterStartEnv) (err : Err),
        c.started = false →
        (clusterStart c env).result = .error err →
        (clusterStart c env).state = c
        ∧ (clusterStart c env).state.started = false
        ∧ (clusterStart c env).executed =
            (clusterStart c env).recorded.reverse
        ∧ (∀ t, Action.removeDir t ∈ (clusterStart c env).recorded →
            ∃ k, k < c.replicas ∧ env.mkdirTemp k = .ok t)) := by
  constructor
  · intro cfg e env err hs herr
    rcases instanceStart_shape cfg e env hs with ⟨hok, -⟩ | ⟨hst, hexec⟩
    · rw [herr] at hok
      cases hok
    · refine ⟨hst, by rw [hst]; exact hs, hexec,
        instanceStart_recorded cfg e env hs, ?_⟩
      intro hdp t hmem
      rw [hexec] at hmem
      have := instanceStart_recorded cfg e env hs t (List.mem_reverse.mp hmem)
      exact hdp this.1
  · intro c env err hs herr
    rcases clusterStart_shape c env hs with ⟨hok, -⟩ | ⟨hst, hexec⟩
    · rw [herr] at hok
      cases hok
    · exact ⟨hst, by rw [hst]; exact hs, hexec, clusterStart_recorded c env hs⟩

/-- Claim C1 witness: a single-node start whose readiness probe fails is
rolled back (process stopped, temp directory removed, in reverse
recording order) with the state unchanged, and a 2-node cluster start
whose quorum probe fails likewise leaves the cluster unchanged. -/
theorem startFailure_atomic_spec_witness :
    (instanceStart {} {}
        ⟨.ok "bin", fun k => .ok (9000 + k), .ok (), .ok "/tmp/e",
         .ok "/tmp/e/config.xml", .ok 7,
         .error (.notReady .deadlineExceeded)⟩).state = {}
    ∧ (instanceStart {} {}
        ⟨.ok "bin", fun k => .ok (9000 + k), .ok (), .ok "/tmp/e",
         .ok "/tmp/e/config.xml", .ok 7,
         .error (.notReady .deadlineExceeded)⟩).executed =
      (instanceStart {} {}
        ⟨.ok "bin", fun k => .ok (9000 + k), .ok (), .ok "/tmp/e",
         .ok "/tmp/e/config.xml", .ok 7,
         .error (.notReady .deadlineExceeded)⟩).recorded.reverse
    ∧ (clusterStart ⟨2, false, []⟩
        ⟨.ok "bin", fun k => .ok (9100 + k), fun i => .ok ("/t" ++ toString i),
         fun _ => .ok "cfg", fun i => .ok (100 + i), fun _ => .ok (),
         .error (.keeperNotReady .deadlineExceeded)⟩).state = ⟨2, false, []⟩ := by
  have h1 := startFailure_atomic_spec.1 {} {}
    ⟨.ok "bin", fun k => .ok (9000 + k), .ok (), .ok "/tmp/e",
     .ok "/tmp/e/config.xml", .ok 7, .error (.notReady .deadlineExceeded)⟩
    (.notReady .deadlineExceeded) rfl (by decide)
  have h2 := startFailure_atomic_spec.2 ⟨2, false, []⟩
    ⟨.ok "bin", fun k => .ok (9100 + k), fun i => .ok ("/t" ++ toString i),
     fun _ => .ok "cfg", fun i => .ok (100 + i), fun _ => .ok (),
     .error (.keeperNotReady .deadlineExceeded)⟩
    (.keeperNotReady .deadlineExceeded) rfl (by decide)
  exact ⟨h1.1, h1.2.2.1, h2.1⟩

end ECH
